import Mathlib

/-!
Verification development for the OCI custom-authorizer function with IAM token
caching (`src/func.py`).  The Python source is shallowly embedded below:
pure helpers become Lean functions, the module-level mutable state
(`auth_cache`, `oauth_apps`) is threaded explicitly, Python exceptions become
an explicit `PyErr` error type carried in `Except`, and the single network
call (`requests.post`) is modelled by passing the HTTP response the network
would deliver as an input to the handler.  Wall-clock time (`time.time()`)
is a `Nat` parameter `now`; stored expiry timestamps are `Int` (a decoded
JWT `exp` claim may be any integer).
-/

/-- JSON values, as produced by Python's `json.loads`.  Objects are modelled
as association lists without duplicate keys (Python dicts); JSON numbers are
modelled as integers (none of the code paths studied here depend on float
payloads). -/
inductive JValue where
  | null : JValue
  | bool : Bool → JValue
  | num : Int → JValue
  | str : String → JValue
  | arr : List JValue → JValue
  | obj : List (String × JValue) → JValue

/-- Look a key up in a Python-dict association list (`d[k]` presence). -/
def dictFind (fields : List (String × JValue)) (k : String) : Option JValue :=
  (fields.find? (fun p => p.1 == k)).map (fun p => p.2)

/-- Python `d.get(k)`: the value when present, `None` otherwise. -/
def dictGet (fields : List (String × JValue)) (k : String) : JValue :=
  (dictFind fields k).getD JValue.null

/-- Python `d.get(k, default)`. -/
def dictGetOr (fields : List (String × JValue)) (k : String) (dflt : JValue) : JValue :=
  (dictFind fields k).getD dflt

/-- Python truthiness of a JSON-derived value. -/
def pyTruthy : JValue → Bool
  | JValue.null => false
  | JValue.bool b => b
  | JValue.num n => n != 0
  | JValue.str s => s != ""
  | JValue.arr xs => !xs.isEmpty
  | JValue.obj fs => !fs.isEmpty

/-- Python's type name for a JSON-derived value (used in AttributeError text). -/
def pyTypeName : JValue → String
  | JValue.null => "NoneType"
  | JValue.bool _ => "bool"
  | JValue.num _ => "int"
  | JValue.str _ => "str"
  | JValue.arr _ => "list"
  | JValue.obj _ => "dict"

/-- Comma-join for `pyStr` container rendering. -/
def pyStrJoin : List String → String
  | [] => ""
  | [s] => s
  | s :: rest => s ++ ", " ++ pyStrJoin rest

mutual
/-- Python `str()` of a JSON-derived value, as used by f-string interpolation
(`f"Bearer \x7btoken\x7d"`).  For containers this is Python's `repr`. -/
def pyStr : JValue → String
  | JValue.null => "None"
  | JValue.bool b => if b then "True" else "False"
  | JValue.num n => toString n
  | JValue.str s => s
  | JValue.arr xs => "[" ++ pyStrJoin (pyReprList xs) ++ "]"
  | JValue.obj fs => "\x7b" ++ pyStrJoin (pyReprFields fs) ++ "\x7d"

/-- Python `repr()` of a JSON-derived value (string values get quoted). -/
def pyRepr : JValue → String
  | JValue.null => "None"
  | JValue.bool b => if b then "True" else "False"
  | JValue.num n => toString n
  | JValue.str s => "\x27" ++ s ++ "\x27"
  | JValue.arr xs => "[" ++ pyStrJoin (pyReprList xs) ++ "]"
  | JValue.obj fs => "\x7b" ++ pyStrJoin (pyReprFields fs) ++ "\x7d"

def pyReprList : List JValue → List String
  | [] => []
  | v :: rest => pyRepr v :: pyReprList rest

def pyReprFields : List (String × JValue) → List String
  | [] => []
  | (k, v) :: rest => ("\x27" ++ k ++ "\x27: " ++ pyRepr v) :: pyReprFields rest
end

/-- The Python exceptions the embedded code can raise.  `jsonDecodeError`
models `json.JSONDecodeError`, which subclasses `ValueError` and is therefore
caught by the handler's `except ValueError` branch. -/
inductive PyErr where
  | valueError : String → PyErr
  | jsonDecodeError : String → PyErr
  | runtimeError : String → PyErr
  | attributeError : String → PyErr
  | keyError : String → PyErr
  | requestException : String → PyErr

/-- Whether the exception is caught by `except ValueError` in `handler`
(`json.JSONDecodeError` is a `ValueError` subclass). -/
def PyErr.isValueError : PyErr → Bool
  | PyErr.valueError _ => true
  | PyErr.jsonDecodeError _ => true
  | _ => false

/-- Python `str(ex)`, as interpolated into the error response body.
`str` of a `KeyError` is the `repr` of the missing key. -/
def PyErr.msg : PyErr → String
  | PyErr.valueError m => m
  | PyErr.jsonDecodeError m => m
  | PyErr.runtimeError m => m
  | PyErr.attributeError m => m
  | PyErr.keyError k => "\x27" ++ k ++ "\x27"
  | PyErr.requestException m => m

/-- The `oauth_apps['iam']` configuration record built by `init_context`. -/
structure OAuthApp where
  TOKEN_URL : String
  SCOPE : String

/-- One entry of the module-level `auth_cache` dict:
`auth_cache[cache_key] = \x7b"token": token, "exp": expiry\x7d`. -/
structure CacheEntry where
  token : JValue
  exp : Int

/-- The module-level `auth_cache` dict, keyed by the hex cache key. -/
def Cache : Type := String → Option CacheEntry

/-- The empty `auth_cache`. -/
def emptyCache : Cache := fun _ => none

/-- The HTTP response `requests.post` delivers: status code, body text, and
the result of `response_obj.json()` (`Except.error` when the body is not
valid JSON, in which case `.json()` raises a `ValueError` subclass). -/
structure HttpResponse where
  status_code : Nat
  text : String
  json : Except String JValue

/-- `init_context`: when `oauth_apps` is already non-empty the call is a
no-op; otherwise it reads `context['TOKEN_URL']` then `context['SCOPE']`,
raising `KeyError` (re-raised after logging) if either is absent, and stores
nothing on failure (the dict literal is fully evaluated before assignment).
On success it returns the stored `oauth_apps['iam']` record. -/
def init_context (oauth_apps : Option OAuthApp) (context : String → Option String) :
    Except PyErr OAuthApp :=
  match oauth_apps with
  | some app => Except.ok app
  | none =>
    match context "TOKEN_URL" with
    | none => Except.error (PyErr.keyError "TOKEN_URL")
    | some u =>
      match context "SCOPE" with
      | none => Except.error (PyErr.keyError "SCOPE")
      | some s => Except.ok { TOKEN_URL := u, SCOPE := s }

/-- Python `s.startswith(pre)`: a prefix test on the character list
(equivalent to `String.startsWith`, kept kernel-reducible). -/
def pyStartsWith (s pre : String) : Bool := pre.data.isPrefixOf s.data

/-- The final validation step of `extract_auth_header` (the `if not
auth_header or not auth_header.startswith("Basic ")` check): raise
`ValueError` on a falsy match, test the `"Basic "` prefix on a string match,
raise `AttributeError` for `.startswith` on a non-string truthy match. -/
def extract_check (chain : Except PyErr JValue) : Except PyErr String :=
  match chain with
  | Except.error e => Except.error e
  | Except.ok auth_header =>
    if pyTruthy auth_header = false then
      Except.error (PyErr.valueError "Missing or invalid Authorization header")
    else
      match auth_header with
      | JValue.str s =>
        if pyStartsWith s "Basic " then Except.ok s
        else Except.error (PyErr.valueError "Missing or invalid Authorization header")
      | v =>
        Except.error (PyErr.attributeError
          ("\x27" ++ pyTypeName v ++ "\x27 object has no attribute \x27startswith\x27"))

/-- The short-circuiting candidate chain of `extract_auth_header`:
`body.get("token") or body.get("data", \x7b\x7d).get("Authorization") or
body.get("Authorization")`; attribute access on a non-dict `data` value
raises `AttributeError`. -/
def extract_chain (fields : List (String × JValue)) : Except PyErr JValue :=
  if pyTruthy (dictGet fields "token") then Except.ok (dictGet fields "token")
  else
    match dictGetOr fields "data" (JValue.obj []) with
    | JValue.obj dfields =>
      if pyTruthy (dictGet dfields "Authorization") then
        Except.ok (dictGet dfields "Authorization")
      else Except.ok (dictGet fields "Authorization")
    | v =>
      Except.error (PyErr.attributeError
        ("\x27" ++ pyTypeName v ++ "\x27 object has no attribute \x27get\x27"))

/-- `extract_auth_header`: the candidate chain followed by the validation
check; `.get` on a non-dict payload raises `AttributeError`. -/
def extract_auth_header (body : JValue) : Except PyErr String :=
  match body with
  | JValue.obj fields => extract_check (extract_chain fields)
  | v =>
    Except.error (PyErr.attributeError
      ("\x27" ++ pyTypeName v ++ "\x27 object has no attribute \x27get\x27"))

/-- `get_cached_token`: returns the cached token when an entry exists, its
`exp` is truthy (non-zero) and `time.time() < exp`; otherwise `None`. -/
def get_cached_token (auth_cache : Cache) (cache_key : String) (now : Nat) :
    Option JValue :=
  match auth_cache cache_key with
  | none => none
  | some token_data =>
    if token_data.exp ≠ 0 ∧ (now : Int) < token_data.exp then some token_data.token
    else none

/-- `cache_token`: stores `\x7b"token": token, "exp": exp or (time.time() + 300)\x7d`
under `cache_key`, overwriting any previous entry (Python's falsy `or` also
replaces a literal `0` expiry with the fallback). -/
def cache_token (auth_cache : Cache) (cache_key : String) (token : JValue)
    (exp : Option Int) (now : Nat) : Cache :=
  let expiry : Int :=
    match exp with
    | none => (now : Int) + 300
    | some e => if e = 0 then (now : Int) + 300 else e
  fun k => if k = cache_key then some { token := token, exp := expiry } else auth_cache k

/-!
Section: SHA-256 (`hashlib.sha256(...).hexdigest()`)

`get_cache_key` hashes the UTF-8 bytes of the credential with SHA-256 and
encodes the digest as 64 lowercase hex characters.  The hash is embedded
from FIPS 180-4, with 32-bit words as `Nat` reduced modulo `2 ^ 32`.
-/

/-- UTF-8 encoding of one Unicode code point (Python `str.encode("utf-8")`). -/
def utf8EncodeChar (n : Nat) : List Nat :=
  if n < 128 then [n]
  else if n < 2048 then [192 + n / 64, 128 + n % 64]
  else if n < 65536 then [224 + n / 4096, 128 + n / 64 % 64, 128 + n % 64]
  else [240 + n / 262144, 128 + n / 4096 % 64, 128 + n / 64 % 64, 128 + n % 64]

/-- UTF-8 bytes of a string (Python `s.encode("utf-8")`). -/
def utf8Encode (s : String) : List Nat :=
  s.data.flatMap (fun c => utf8EncodeChar c.toNat)

/-- Reduce modulo `2 ^ 32` (32-bit word arithmetic). -/
def w32 (n : Nat) : Nat := n % 4294967296

/-- Right rotation of a 32-bit word by `n` bits. -/
def rotr32 (n x : Nat) : Nat := w32 (x / 2 ^ n + x % 2 ^ n * 2 ^ (32 - n))

/-- SHA-256 Σ₀. -/
def bigSigma0 (x : Nat) : Nat := rotr32 2 x ^^^ rotr32 13 x ^^^ rotr32 22 x

/-- SHA-256 Σ₁. -/
def bigSigma1 (x : Nat) : Nat := rotr32 6 x ^^^ rotr32 11 x ^^^ rotr32 25 x

/-- SHA-256 σ₀ (rotr 7, rotr 18, shr 3). -/
def smallSigma0 (x : Nat) : Nat := rotr32 7 x ^^^ rotr32 18 x ^^^ x / 8

/-- SHA-256 σ₁ (rotr 17, rotr 19, shr 10). -/
def smallSigma1 (x : Nat) : Nat := rotr32 17 x ^^^ rotr32 19 x ^^^ x / 1024

/-- SHA-256 Ch(x,y,z) = (x ∧ y) ⊕ (¬x ∧ z), on 32-bit words. -/
def shaCh (x y z : Nat) : Nat := (x &&& y) ^^^ ((4294967295 - w32 x) &&& z)

/-- SHA-256 Maj(x,y,z). -/
def shaMaj (x y z : Nat) : Nat := (x &&& y) ^^^ (x &&& z) ^^^ (y &&& z)

/-- The 64 SHA-256 round constants. -/
def shaK : List Nat := [
  1116352408, 1899447441, 3049323471, 3921009573, 961987163,
  1508970993, 2453635748, 2870763221, 3624381080, 310598401,
  607225278, 1426881987, 1925078388, 2162078206, 2614888103,
  3248222580, 3835390401, 4022224774, 264347078, 604807628,
  770255983, 1249150122, 1555081692, 1996064986, 2554220882,
  2821834349, 2952996808, 3210313671, 3336571891, 3584528711,
  113926993, 338241895, 666307205, 773529912, 1294757372,
  1396182291, 1695183700, 1986661051, 2177026350, 2456956037,
  2730485921, 2820302411, 3259730800, 3345764771, 3516065817,
  3600352804, 4094571909, 275423344, 430227734, 506948616,
  659060556, 883997877, 958139571, 1322822218, 1537002063,
  1747873779, 1955562222, 2024104815, 2227730452, 2361852424,
  2428436474, 2756734187, 3204031479, 3329325298]

/-- The SHA-256 initial hash value. -/
def shaH0 : List Nat := [
  1779033703, 3144134277, 1013904242,
  2773480762, 1359893119, 2600822924,
  528734635, 1541459225]

/-- Message padding: append `0x80`, zeros to 56 mod 64, then the bit length
as 8 big-endian bytes. -/
def padMessage (msg : List Nat) : List Nat :=
  let L := msg.length
  let zeros := (120 - (L + 1) % 64) % 64
  let bits := 8 * L
  msg ++ [128] ++ List.replicate zeros 0 ++
    [bits / 72057594037927936 % 256, bits / 281474976710656 % 256,
     bits / 1099511627776 % 256, bits / 4294967296 % 256,
     bits / 16777216 % 256, bits / 65536 % 256, bits / 256 % 256, bits % 256]

/-- Split a byte list into 64-byte blocks (`fuel` bounds the recursion). -/
def chunks64 : Nat → List Nat → List (List Nat)
  | 0, _ => []
  | _, [] => []
  | fuel + 1, l => l.take 64 :: chunks64 fuel (l.drop 64)

/-- Big-endian 32-bit words from bytes. -/
def bytesToWords : List Nat → List Nat
  | b0 :: b1 :: b2 :: b3 :: rest =>
    (b0 * 16777216 + b1 * 65536 + b2 * 256 + b3) :: bytesToWords rest
  | _ => []

/-- Extend the 16 message-schedule words to 64. -/
def extendSchedule : Nat → List Nat → List Nat
  | 0, w => w
  | n + 1, w =>
    let t := w.length
    let wt := w32 (smallSigma1 (w.getD (t - 2) 0) + w.getD (t - 7) 0 +
      smallSigma0 (w.getD (t - 15) 0) + w.getD (t - 16) 0)
    extendSchedule n (w ++ [wt])

/-- One SHA-256 compression round on the state `[a,b,c,d,e,f,g,h]`. -/
def compressRound (s : List Nat) (kt wt : Nat) : List Nat :=
  let a := s.getD 0 0
  let b := s.getD 1 0
  let c := s.getD 2 0
  let d := s.getD 3 0
  let e := s.getD 4 0
  let f := s.getD 5 0
  let g := s.getD 6 0
  let h := s.getD 7 0
  let t1 := w32 (h + bigSigma1 e + shaCh e f g + (shaK.getD kt 0) + wt)
  let t2 := w32 (bigSigma0 a + shaMaj a b c)
  [w32 (t1 + t2), a, b, c, w32 (d + t1), e, f, g]

/-- Process one 64-byte block. -/
def processBlock (H : List Nat) (block : List Nat) : List Nat :=
  let w := extendSchedule 48 (bytesToWords block)
  let s := (List.range 64).foldl (fun s t => compressRound s t (w.getD t 0)) H
  List.zipWith (fun x y => w32 (x + y)) H s

/-- SHA-256 of a byte list: the eight 32-bit hash words. -/
def sha256 (msg : List Nat) : List Nat :=
  let padded := padMessage msg
  (chunks64 padded.length padded).foldl processBlock shaH0

/-- The sixteen lowercase hex digits. -/
def hexDigitChars : List Char := "0123456789abcdef".data

/-- The hex digit for a nibble. -/
def nibbleChar (n : Nat) : Char := hexDigitChars.getD (n % 16) '0'

/-- Fixed-width (8 hex characters) rendering of a 32-bit word. -/
def wordHex (w : Nat) : List Char :=
  [nibbleChar (w / 268435456), nibbleChar (w / 16777216), nibbleChar (w / 1048576),
   nibbleChar (w / 65536), nibbleChar (w / 4096), nibbleChar (w / 256),
   nibbleChar (w / 16), nibbleChar w]

/-- `hexdigest()`: lowercase hex encoding of the hash words. -/
def hexdigest (words : List Nat) : String := String.mk (words.flatMap wordHex)

/-- `get_cache_key`: SHA-256 of the UTF-8 bytes of the credential, as a
lowercase hex string. -/
def get_cache_key (auth_header : String) : String :=
  hexdigest (sha256 (utf8Encode auth_header))

/-!
Section: `decode_jwt_expiry` (`jwt.decode(token, options=..., verify_signature off)`)

`decode_jwt_expiry` tries to read the `exp` claim of the freshly fetched
token without verifying its signature, returning `None` on any failure
(PyJWT raises, the `except` swallows it).  The embedding decodes the three
dot-separated segments (base64url), requires header and payload to be JSON
objects, and returns an integer `exp` claim.  Outside the model (all
returning `none` here, where CPython can behave differently): tokens whose
segments contain stray non-alphabet characters (binascii discards them),
float or non-numeric `exp` claims, astral-plane `\u` surrogate pairs, and
non-3-segment tokens.  No studied claim depends on these paths.
-/

/-- Value of a base64url alphabet character. -/
def b64Val (c : Char) : Option Nat :=
  let n := c.toNat
  if 65 ≤ n ∧ n ≤ 90 then some (n - 65)
  else if 97 ≤ n ∧ n ≤ 122 then some (n - 71)
  else if 48 ≤ n ∧ n ≤ 57 then some (n + 4)
  else if c = '-' then some 62
  else if c = '_' then some 63
  else none

/-- Bytes from 6-bit groups (a trailing group of 1 value is invalid). -/
def b64Bytes : List Nat → Option (List Nat)
  | [] => some []
  | [_] => none
  | [a, b] => some [a * 4 + b / 16]
  | [a, b, c] => some [a * 4 + b / 16, b % 16 * 16 + c / 4]
  | a :: b :: c :: d :: rest =>
    (b64Bytes rest).map (fun t =>
      (a * 4 + b / 16) :: (b % 16 * 16 + c / 4) :: (c % 4 * 64 + d) :: t)

/-- PyJWT's base64url decoding of a token segment (padding is stripped). -/
def base64urlDecode (s : String) : Option (List Nat) :=
  let core := s.data.takeWhile (fun c => c ≠ '=')
  match core.mapM b64Val with
  | none => none
  | some vals => b64Bytes vals

/-- UTF-8 decoding of a byte list (Python `bytes.decode("utf-8")`):
rejects continuation-byte errors, overlong forms and surrogates. -/
def utf8DecodeAux : Nat → List Nat → Option (List Char)
  | _, [] => some []
  | 0, _ => none
  | fuel + 1, b :: rest =>
    if b < 128 then (utf8DecodeAux fuel rest).map (fun cs => Char.ofNat b :: cs)
    else if b < 194 then none
    else if b < 224 then
      match rest with
      | b2 :: rest2 =>
        if 128 ≤ b2 ∧ b2 < 192 then
          (utf8DecodeAux fuel rest2).map
            (fun cs => Char.ofNat ((b - 192) * 64 + (b2 - 128)) :: cs)
        else none
      | [] => none
    else if b < 240 then
      match rest with
      | b2 :: b3 :: rest2 =>
        if (128 ≤ b2 ∧ b2 < 192) ∧ (128 ≤ b3 ∧ b3 < 192) then
          let n := (b - 224) * 4096 + (b2 - 128) * 64 + (b3 - 128)
          if n < 2048 ∨ (55296 ≤ n ∧ n < 57344) then none
          else (utf8DecodeAux fuel rest2).map (fun cs => Char.ofNat n :: cs)
        else none
      | _ => none
    else if b < 245 then
      match rest with
      | b2 :: b3 :: b4 :: rest2 =>
        if (128 ≤ b2 ∧ b2 < 192) ∧ (128 ≤ b3 ∧ b3 < 192) ∧ (128 ≤ b4 ∧ b4 < 192) then
          let n := (b - 240) * 262144 + (b2 - 128) * 4096 + (b3 - 128) * 64 + (b4 - 128)
          if n < 65536 ∨ 1114112 ≤ n then none
          else (utf8DecodeAux fuel rest2).map (fun cs => Char.ofNat n :: cs)
        else none
      | _ => none
    else none

/-- UTF-8 decoding entry point. -/
def utf8Decode (bytes : List Nat) : Option (List Char) :=
  utf8DecodeAux bytes.length bytes

/-- JSON whitespace skipping. -/
def skipWs (l : List Char) : List Char :=
  l.dropWhile (fun c => c = ' ' || c = '\t' || c = '\n' || c = '\r')

/-- Value of a hex digit character. -/
def hexVal (c : Char) : Option Nat :=
  let n := c.toNat
  if 48 ≤ n ∧ n ≤ 57 then some (n - 48)
  else if 97 ≤ n ∧ n ≤ 102 then some (n - 87)
  else if 65 ≤ n ∧ n ≤ 70 then some (n - 55)
  else none

/-- Code point for a JSON single-character escape. -/
def escCharCode (e : Char) : Option Nat :=
  if e.toNat = 34 then some 34
  else if e.toNat = 92 then some 92
  else if e = '/' then some 47
  else if e = 'b' then some 8
  else if e = 'f' then some 12
  else if e = 'n' then some 10
  else if e = 'r' then some 13
  else if e = 't' then some 9
  else none

/-- JSON string body after the opening quote: the decoded characters and the
rest of the input after the closing quote. -/
def parseStringBody : List Char → Option (List Char × List Char)
  | [] => none
  | c :: rest =>
    if c.toNat = 34 then some ([], rest)
    else if c.toNat = 92 then
      match rest with
      | [] => none
      | e :: rest2 =>
        if e = 'u' then
          match rest2 with
          | h1 :: h2 :: h3 :: h4 :: rest3 =>
            match hexVal h1, hexVal h2, hexVal h3, hexVal h4 with
            | some v1, some v2, some v3, some v4 =>
              let n := v1 * 4096 + v2 * 256 + v3 * 16 + v4
              if 55296 ≤ n ∧ n < 57344 then none
              else (parseStringBody rest3).map (fun p => (Char.ofNat n :: p.1, p.2))
            | _, _, _, _ => none
          | _ => none
        else
          match escCharCode e with
          | some code => (parseStringBody rest2).map (fun p => (Char.ofNat code :: p.1, p.2))
          | none => none
    else if c.toNat < 32 then none
    else (parseStringBody rest).map (fun p => (c :: p.1, p.2))

/-- Accumulate decimal digits. -/
def digitsVal : List Char → Nat → Nat × List Char
  | [], acc => (acc, [])
  | c :: rest, acc =>
    if c.isDigit then digitsVal rest (acc * 10 + (c.toNat - 48)) else (acc, c :: rest)

/-- A JSON natural-number literal (no leading zeros). -/
def parseNatLit : List Char → Option (Nat × List Char)
  | [] => none
  | c :: rest =>
    if c = '0' then
      match rest with
      | d :: _ => if d.isDigit then none else some (0, rest)
      | [] => some (0, [])
    else if c.isDigit then some (digitsVal rest (c.toNat - 48))
    else none

/-- Whether a fraction or exponent follows (floats are outside the model). -/
def floatFollows : List Char → Bool
  | c :: _ => c = '.' || c = 'e' || c = 'E'
  | [] => false

/-- `d[k] = v` on a Python dict: update in place, or append a new key. -/
def dictSet (fields : List (String × JValue)) (k : String) (v : JValue) :
    List (String × JValue) :=
  if (fields.find? (fun p => p.1 == k)).isSome then
    fields.map (fun p => if p.1 == k then (p.1, v) else p)
  else fields ++ [(k, v)]

mutual
/-- Recursive-descent JSON value parser (fuel-bounded; the entry point
supplies enough fuel for any input). -/
def parseValue : Nat → List Char → Option (JValue × List Char)
  | 0, _ => none
  | fuel + 1, input =>
    match skipWs input with
    | [] => none
    | c :: rest =>
      if c.toNat = 34 then
        (parseStringBody rest).map (fun p => (JValue.str (String.mk p.1), p.2))
      else if c = '[' then
        match skipWs rest with
        | ']' :: rest2 => some (JValue.arr [], rest2)
        | _ => parseElems fuel rest []
      else if c.toNat = 123 then
        match skipWs rest with
        | d :: rest2 => if d.toNat = 125 then some (JValue.obj [], rest2) else parseMembers fuel rest []
        | [] => none
      else if c = 't' then
        match rest with
        | 'r' :: 'u' :: 'e' :: rest2 => some (JValue.bool true, rest2)
        | _ => none
      else if c = 'f' then
        match rest with
        | 'a' :: 'l' :: 's' :: 'e' :: rest2 => some (JValue.bool false, rest2)
        | _ => none
      else if c = 'n' then
        match rest with
        | 'u' :: 'l' :: 'l' :: rest2 => some (JValue.null, rest2)
        | _ => none
      else if c = '-' then
        match parseNatLit rest with
        | some (n, rest2) =>
          if floatFollows rest2 then none else some (JValue.num (-(n : Int)), rest2)
        | none => none
      else if c.isDigit then
        match parseNatLit (c :: rest) with
        | some (n, rest2) =>
          if floatFollows rest2 then none else some (JValue.num (n : Int), rest2)
        | none => none
      else none

/-- Array elements after the opening bracket. -/
def parseElems : Nat → List Char → List JValue → Option (JValue × List Char)
  | 0, _, _ => none
  | fuel + 1, input, acc =>
    match parseValue fuel input with
    | none => none
    | some (v, rest) =>
      match skipWs rest with
      | ',' :: rest2 => parseElems fuel rest2 (acc ++ [v])
      | ']' :: rest2 => some (JValue.arr (acc ++ [v]), rest2)
      | _ => none

/-- Object members after the opening brace. -/
def parseMembers : Nat → List Char → List (String × JValue) → Option (JValue × List Char)
  | 0, _, _ => none
  | fuel + 1, input, acc =>
    match skipWs input with
    | [] => none
    | c :: rest =>
      if c.toNat = 34 then
        match parseStringBody rest with
        | some (kcs, rest2) =>
          match skipWs rest2 with
          | ':' :: rest3 =>
            match parseValue fuel rest3 with
            | some (v, rest4) =>
              let acc2 := dictSet acc (String.mk kcs) v
              match skipWs rest4 with
              | ',' :: rest5 => parseMembers fuel rest5 acc2
              | d :: rest5 => if d.toNat = 125 then some (JValue.obj acc2, rest5) else none
              | [] => none
            | none => none
          | _ => none
        | none => none
      else none
end

/-- `json.loads` on decoded characters: one value, then only whitespace. -/
def jsonParse (s : List Char) : Option JValue :=
  match parseValue (4 * (s.length + 1)) s with
  | some (v, rest) => if (skipWs rest).isEmpty then some v else none
  | none => none

/-- Split a character list at every occurrence of a separator character. -/
def splitOnChar (sep : Char) : List Char → List (List Char)
  | [] => [[]]
  | c :: rest =>
    if c = sep then [] :: splitOnChar sep rest
    else
      match splitOnChar sep rest with
      | g :: gs => (c :: g) :: gs
      | [] => [[c]]

/-- Python `s.split(".")` (equivalent to `String.splitOn "."`, kept
kernel-reducible). -/
def splitOnDot (s : String) : List String := (splitOnChar '.' s.data).map String.mk

/-- Decode one JWT segment: base64url, UTF-8, JSON. -/
def jwtSegmentJson (seg : String) : Option JValue :=
  (base64urlDecode seg).bind (fun bytes =>
    (utf8Decode bytes).bind (fun chars => jsonParse chars))

/-- `decode_jwt_expiry`: PyJWT splits the token into three segments, decodes
header, payload and signature, requires header and payload to be JSON
objects, and (signature verification disabled) returns `payload.get("exp")`;
any raised error is caught and yields `None`.  A non-string token raises
inside `jwt.decode` and also yields `None`. -/
def decode_jwt_expiry (token : JValue) : Option Int :=
  match token with
  | JValue.str s =>
    match splitOnDot s with
    | [headerSeg, payloadSeg, sigSeg] =>
      match base64urlDecode sigSeg with
      | none => none
      | some _ =>
        match jwtSegmentJson headerSeg with
        | some (JValue.obj _) =>
          match jwtSegmentJson payloadSeg with
          | some (JValue.obj fs) =>
            match dictFind fs "exp" with
            | some (JValue.num n) => some n
            | _ => none
          | _ => none
        | _ => none
    | _ => none
  | _ => none

/-!
Section: Token exchange and handler orchestration

`requests.post` is I/O: the embedding takes the HTTP outcome (either a
raised `requests` exception or the delivered response) as the `upstream`
input of the invocation.  The handler threads the two module-level state
cells (`oauth_apps`, `auth_cache`) explicitly and reports, besides the
response, whether the token exchange was reached (`fetched`, observable in
the real system as the presence of the network call).
-/

/-- `fetch_new_token`: raises `RuntimeError` on a non-200 status; then
`.json()` (raising a `ValueError` subclass on an unparsable body), then
`token_json.get("access_token")`, raising
`ValueError("No access token returned from OCI IAM")` when falsy. -/
def fetch_new_token (token_url scope auth_header : String)
    (upstream : Except String HttpResponse) : Except PyErr JValue :=
  match upstream with
  | Except.error m => Except.error (PyErr.requestException m)
  | Except.ok response_obj =>
    if response_obj.status_code ≠ 200 then
      Except.error (PyErr.runtimeError ("Token request failed: " ++ response_obj.text))
    else
      match response_obj.json with
      | Except.error m => Except.error (PyErr.jsonDecodeError m)
      | Except.ok token_json =>
        match token_json with
        | JValue.obj fs =>
          let access_token := dictGet fs "access_token"
          if pyTruthy access_token then Except.ok access_token
          else Except.error (PyErr.valueError "No access token returned from OCI IAM")
        | v =>
          Except.error (PyErr.attributeError
            ("\x27" ++ pyTypeName v ++ "\x27 object has no attribute \x27get\x27"))

/-- The success payload built by `handler` (identical on both paths). -/
def success_body (scope : String) (token : JValue) : JValue :=
  JValue.obj [("active", JValue.bool true), ("scope", JValue.str scope),
    ("context", JValue.obj [("token_response", JValue.str ("Bearer " ++ pyStr token))])]

/-- `build_response`: status code plus the (to-be-serialized) JSON body. -/
def build_response (data : JValue) (status : Nat) : Nat × JValue := (status, data)

/-- The outcome of one invocation: outward status and body, the two
module-level state cells afterwards, and whether the exchange was reached. -/
structure HandlerResult where
  status_code : Nat
  body : JValue
  oauth_apps : Option OAuthApp
  auth_cache : Cache
  fetched : Bool

/-- The cache-miss tail of the handler (steps 3-5): fetch, decode expiry,
cache, build the success payload. -/
def handler_fetch (app : OAuthApp) (auth_cache : Cache) (cache_key auth_header : String)
    (upstream : Except String HttpResponse) (now : Nat) :
    Except (PyErr × Option OAuthApp × Cache × Bool) (JValue × Option OAuthApp × Cache × Bool) :=
  match fetch_new_token app.TOKEN_URL app.SCOPE auth_header upstream with
  | Except.error e => Except.error (e, some app, auth_cache, true)
  | Except.ok new_token =>
    let exp := decode_jwt_expiry new_token
    let cache2 := cache_token auth_cache cache_key new_token exp now
    Except.ok (success_body app.SCOPE new_token, some app, cache2, true)

/-- The handler's `try` block: config load, JSON parse, extraction, cache
lookup, and either the cached-token response or the fetch tail.  Errors
carry the state at raise time (mutations made before the raise persist). -/
def handler_try (oauth_apps : Option OAuthApp) (auth_cache : Cache)
    (config : String → Option String) (payload : Except String JValue)
    (upstream : Except String HttpResponse) (now : Nat) :
    Except (PyErr × Option OAuthApp × Cache × Bool) (JValue × Option OAuthApp × Cache × Bool) :=
  match init_context oauth_apps config with
  | Except.error e => Except.error (e, oauth_apps, auth_cache, false)
  | Except.ok app =>
    match payload with
    | Except.error m => Except.error (PyErr.jsonDecodeError m, some app, auth_cache, false)
    | Except.ok body =>
      match extract_auth_header body with
      | Except.error e => Except.error (e, some app, auth_cache, false)
      | Except.ok auth_header =>
        match get_cached_token auth_cache (get_cache_key auth_header) now with
        | some tok =>
          if pyTruthy tok then
            Except.ok (success_body app.SCOPE tok, some app, auth_cache, false)
          else handler_fetch app auth_cache (get_cache_key auth_header) auth_header
            upstream now
        | none => handler_fetch app auth_cache (get_cache_key auth_header) auth_header
            upstream now

/-- `handler`: the `try` block wrapped by `except ValueError` (400) and
`except Exception` (500), both answering `\x7b"error": str(ex)\x7d`. -/
def handler (oauth_apps : Option OAuthApp) (auth_cache : Cache)
    (config : String → Option String) (payload : Except String JValue)
    (upstream : Except String HttpResponse) (now : Nat) : HandlerResult :=
  match handler_try oauth_apps auth_cache config payload upstream now with
  | Except.ok (body, apps, cache, fetched) =>
    let r := build_response body 200
    { status_code := r.1, body := r.2, oauth_apps := apps, auth_cache := cache,
      fetched := fetched }
  | Except.error (e, apps, cache, fetched) =>
    let status := if e.isValueError then 400 else 500
    let r := build_response (JValue.obj [("error", JValue.str e.msg)]) status
    { status_code := r.1, body := r.2, oauth_apps := apps, auth_cache := cache,
      fetched := fetched }

/-!
Section: Spec-side definitions

`spec_first_match` restates, from the spec's wording (§4.2), "the first
non-empty match" among the three payload locations — top-level `token`,
nested `data.Authorization`, top-level `Authorization` — to compare with the
behaviour of `extract_auth_header`.
-/

/-- A non-empty string value, when the candidate holds one. -/
def nonEmptyStr : Option JValue → Option String
  | some (JValue.str s) => if s = "" then none else some s
  | _ => none

/-- Defined from the spec's words: the first non-empty match among
top-level `token`, nested `data.Authorization`, top-level `Authorization`. -/
def spec_first_match (body : JValue) : Option String :=
  match body with
  | JValue.obj fields =>
    (nonEmptyStr (dictFind fields "token")) <|>
    (match dictFind fields "data" with
     | some (JValue.obj dfs) => nonEmptyStr (dictFind dfs "Authorization")
     | _ => none) <|>
    nonEmptyStr (dictFind fields "Authorization")
  | _ => none

/-- The candidate at a payload location is absent, `null`, or a string. -/
def isStrOrNullOpt : Option JValue → Prop
  | none => True
  | some JValue.null => True
  | some (JValue.str _) => True
  | _ => False

/-- The candidate at a payload location is absent or a JSON object. -/
def isObjOpt : Option JValue → Prop
  | none => True
  | some (JValue.obj _) => True
  | _ => False

/-- Defined from the spec's words: extraction succeeds with the first
non-empty match when it bears the `"Basic "` prefix, and fails with the
validation error otherwise (no match, or a match without the prefix). -/
def spec_extract (body : JValue) : Except PyErr String :=
  match spec_first_match body with
  | some s =>
    if pyStartsWith s "Basic " then Except.ok s
    else Except.error (PyErr.valueError "Missing or invalid Authorization header")
  | none => Except.error (PyErr.valueError "Missing or invalid Authorization header")

/-- A concrete configuration record used by concrete instantiations. -/
def cfgApp : OAuthApp :=
  { TOKEN_URL := "https://idcs.example/oauth2/v1/token", SCOPE := "urn:opc:resource:scope" }

/-- A concrete configuration mapping holding both required keys. -/
def cfgStd : String → Option String := fun k =>
  if k = "TOKEN_URL" then some cfgApp.TOKEN_URL
  else if k = "SCOPE" then some cfgApp.SCOPE
  else none

set_option maxRecDepth 100000

/-!
Section: Helper lemmas
-/

/-- Reading the cache at the key just written. -/
theorem cache_token_self (c : Cache) (key : String) (tok : JValue) (exp : Option Int)
    (now : Nat) :
    cache_token c key tok exp now key =
      some { token := tok,
             exp := match exp with
                    | none => (now : Int) + 300
                    | some e => if e = 0 then (now : Int) + 300 else e } := by
  show (if key = key then _ else _) = _
  rw [if_pos rfl]

/-- `get_cached_token` when an entry is present. -/
theorem get_cached_token_eq (c : Cache) (key : String) (now : Nat) (e : CacheEntry)
    (h : c key = some e) :
    get_cached_token c key now =
      if e.exp ≠ 0 ∧ (now : Int) < e.exp then some e.token else none := by
  unfold get_cached_token
  rw [h]

/-- `get_cached_token` when no entry is present. -/
theorem get_cached_token_none (c : Cache) (key : String) (now : Nat) (h : c key = none) :
    get_cached_token c key now = none := by
  unfold get_cached_token
  rw [h]

/-- Lookup after an insert with an explicit non-zero expiry. -/
theorem lookup_after_insert (c : Cache) (key : String) (tok : JValue) (e : Int)
    (now t : Nat) (h0 : e ≠ 0) :
    get_cached_token (cache_token c key tok (some e) now) key t =
      if (t : Int) < e then some tok else none := by
  rw [get_cached_token_eq _ _ _ _ (cache_token_self c key tok (some e) now)]
  show (if ((if e = 0 then (now : Int) + 300 else e) ≠ 0 ∧
      (t : Int) < (if e = 0 then (now : Int) + 300 else e)) then some tok else none) =
    if (t : Int) < e then some tok else none
  rw [if_neg h0]
  by_cases hlt : (t : Int) < e
  · rw [if_pos ⟨h0, hlt⟩, if_pos hlt]
  · rw [if_neg (fun hand => hlt hand.2), if_neg hlt]

/-!
Section: Claims
-/

/-- C1: `get_cached_token` returns the cached token for a key iff an entry
exists for that key and the current time is strictly before its expiry; in
every other case (no entry, or entry expired) it returns the same `None`, so
cache-miss and cache-expired are indistinguishable.  Concretely, after
`insert(key, "tok1", now+100)`, lookup at `now+50` returns `"tok1"` and
lookup at `now+150` returns no-valid-entry. -/
theorem C1_cache_lookup (auth_cache : Cache) (key : String) (t now : Nat) :
    (∀ tok, get_cached_token auth_cache key t = some tok ↔
      ∃ e, auth_cache key = some e ∧ e.token = tok ∧ (t : Int) < e.exp) ∧
    get_cached_token (cache_token auth_cache key (JValue.str "tok1")
        (some ((now : Int) + 100)) now) key (now + 50) = some (JValue.str "tok1") ∧
    get_cached_token (cache_token auth_cache key (JValue.str "tok1")
        (some ((now : Int) + 100)) now) key (now + 150) = none := by
  refine ⟨?_, ?_, ?_⟩
  · intro tok
    cases h : auth_cache key with
    | none =>
      rw [get_cached_token_none _ _ _ h]
      simp
    | some e =>
      rw [get_cached_token_eq _ _ _ _ h]
      by_cases hc : e.exp ≠ 0 ∧ (t : Int) < e.exp
      · rw [if_pos hc]
        constructor
        · intro htok
          injection htok with htok
          exact ⟨e, rfl, htok, hc.2⟩
        · rintro ⟨e2, he2, htok, hlt⟩
          injection he2 with he2
          subst he2
          rw [htok]
      · rw [if_neg hc]
        constructor
        · intro hf
          simp at hf
        · rintro ⟨e2, he2, htok, hlt⟩
          injection he2 with he2
          subst he2
          exact absurd ⟨by omega, hlt⟩ hc
  · rw [lookup_after_insert _ _ _ _ _ _ (by omega : ((now : Int) + 100) ≠ 0)]
    rw [if_pos (by push_cast; omega)]
  · rw [lookup_after_insert _ _ _ _ _ _ (by omega : ((now : Int) + 100) ≠ 0)]
    rw [if_neg (by push_cast; omega)]

/-- Witness for C1 at concrete inputs. -/
theorem C1_cache_lookup_witness :
    get_cached_token (cache_token emptyCache "k" (JValue.str "tok1")
        (some (((0 : Nat) : Int) + 100)) 0) "k" (0 + 50) = some (JValue.str "tok1") ∧
    get_cached_token (cache_token emptyCache "k" (JValue.str "tok1")
        (some (((0 : Nat) : Int) + 100)) 0) "k" (0 + 150) = none :=
  ⟨(C1_cache_lookup emptyCache "k" 0 0).2.1, (C1_cache_lookup emptyCache "k" 0 0).2.2⟩

/-- C5: `cache_token` with an absent expiry substitutes `now + 300` as the
entry's expiry; the insert overwrites unconditionally (the entry stored at
the key does not depend on the previous cache contents); and an insert with
`expiry=None` followed immediately by a lookup at the same `now` returns
the token. -/
theorem C5_cache_insert (auth_cache : Cache) (key : String) (tok : JValue) (now : Nat) :
    (cache_token auth_cache key tok none now) key =
      some { token := tok, exp := (now : Int) + 300 } ∧
    (∀ exp (other : Cache),
      (cache_token auth_cache key tok exp now) key =
        (cache_token other key tok exp now) key) ∧
    get_cached_token (cache_token auth_cache key tok none now) key now = some tok := by
  refine ⟨cache_token_self _ _ _ _ _, ?_, ?_⟩
  · intro exp other
    rw [cache_token_self, cache_token_self]
  · rw [get_cached_token_eq _ _ _ _ (cache_token_self auth_cache key tok none now)]
    show (if ((now : Int) + 300 ≠ 0 ∧ (now : Int) < (now : Int) + 300)
      then some tok else none) = some tok
    rw [if_pos ⟨by omega, by omega⟩]

/-- Witness for C5 at concrete inputs. -/
theorem C5_cache_insert_witness :
    (cache_token emptyCache "k" (JValue.str "tok") none 7) "k" =
      some { token := JValue.str "tok", exp := ((7 : Nat) : Int) + 300 } ∧
    get_cached_token (cache_token emptyCache "k" (JValue.str "tok") none 7) "k" 7 =
      some (JValue.str "tok") :=
  ⟨(C5_cache_insert emptyCache "k" (JValue.str "tok") 7).1,
   (C5_cache_insert emptyCache "k" (JValue.str "tok") 7).2.2⟩

/-- C6: `init_context` is idempotent — once the configuration exists, every
subsequent call is a no-op that keeps the stored record (its `TOKEN_URL` and
`SCOPE` unchanged) and raises no error, whatever the configuration mapping
contains, even one lacking the required keys. -/
theorem C6_init_idempotent (app : OAuthApp) (config : String → Option String) :
    init_context (some app) config = Except.ok app := rfl

/-- Witness for C6 at a concrete input (a mapping lacking both keys). -/
theorem C6_init_idempotent_witness :
    init_context (some { TOKEN_URL := "u", SCOPE := "s" }) (fun _ => none) =
      Except.ok { TOKEN_URL := "u", SCOPE := "s" } :=
  C6_init_idempotent { TOKEN_URL := "u", SCOPE := "s" } (fun _ => none)

/-- A compression round always yields an 8-word state. -/
theorem compressRound_length (s : List Nat) (kt wt : Nat) :
    (compressRound s kt wt).length = 8 := rfl

/-- Folding compression rounds preserves the 8-word state length. -/
theorem foldl_compressRound_length (l : List Nat) (w : List Nat) (s : List Nat)
    (h : s.length = 8) :
    (l.foldl (fun st t => compressRound st t (w.getD t 0)) s).length = 8 := by
  induction l generalizing s with
  | nil => exact h
  | cons a as ih => exact ih _ (compressRound_length _ _ _)

/-- Processing a block preserves the 8-word hash length. -/
theorem processBlock_length (H b : List Nat) (h : H.length = 8) :
    (processBlock H b).length = 8 := by
  show (List.zipWith _ H _).length = 8
  rw [List.length_zipWith, foldl_compressRound_length _ _ _ h, h]
  rfl

/-- SHA-256 yields eight hash words. -/
theorem sha256_length (msg : List Nat) : (sha256 msg).length = 8 := by
  have key : ∀ (bs : List (List Nat)) (H : List Nat), H.length = 8 →
      (bs.foldl processBlock H).length = 8 := by
    intro bs
    induction bs with
    | nil => intro H h; exact h
    | cons b bs ih => intro H h; exact ih _ (processBlock_length _ _ h)
  exact key _ shaH0 rfl

/-- Each hash word renders as 8 hex characters. -/
theorem wordHex_length (z : Nat) : (wordHex z).length = 8 := rfl

/-- Length of the full hex rendering. -/
theorem flatMap_wordHex_length (ws : List Nat) :
    (ws.flatMap wordHex).length = 8 * ws.length := by
  induction ws with
  | nil => rfl
  | cons a as ih =>
    rw [List.flatMap_cons, List.length_append, ih, wordHex_length, List.length_cons]
    ring

/-- Every nibble renders as one of the sixteen lowercase hex digits. -/
theorem nibbleChar_mem (n : Nat) : nibbleChar n ∈ hexDigitChars := by
  unfold nibbleChar
  have h : n % 16 < 16 := Nat.mod_lt _ (by norm_num)
  set m := n % 16 with hm
  interval_cases m <;> decide

/-- Every character of the hex rendering is a lowercase hex digit. -/
theorem mem_hexDigitChars_of_mem_flatMap (c : Char) (ws : List Nat)
    (h : c ∈ ws.flatMap wordHex) : c ∈ hexDigitChars := by
  rw [List.mem_flatMap] at h
  obtain ⟨w, _, hc⟩ := h
  unfold wordHex at hc
  simp only [List.mem_cons, List.not_mem_nil, or_false] at hc
  rcases hc with h1 | h1 | h1 | h1 | h1 | h1 | h1 | h1 <;> (rw [h1]; exact nibbleChar_mem _)

/-- C9: `get_cache_key` is the SHA-256 hash of the UTF-8 bytes of the
credential, encoded as a fixed-length (64-character) lowercase hexadecimal
string, and it is a pure deterministic function: repeated calls with the
same credential return the same key. -/
theorem C9_cache_key_derivation (C : String) :
    get_cache_key C = hexdigest (sha256 (utf8Encode C)) ∧
    get_cache_key C = get_cache_key C ∧
    (get_cache_key C).length = 64 ∧
    ∀ c ∈ (get_cache_key C).data, c ∈ hexDigitChars := by
  refine ⟨rfl, rfl, ?_, ?_⟩
  · show ((sha256 (utf8Encode C)).flatMap wordHex).length = 64
    rw [flatMap_wordHex_length, sha256_length]
  · intro c hc
    exact mem_hexDigitChars_of_mem_flatMap c (sha256 (utf8Encode C)) hc

/-- Witness for C9 at the spec's example credential: the derived key has 64
characters, and the hypothesis of the charset clause is discharged at the
key's first character. -/
theorem C9_cache_key_derivation_witness :
    (get_cache_key "Basic QWxhZGRpbjpvcGVuc2VzYW1l").length = 64 ∧
    '0' ∈ hexDigitChars :=
  ⟨(C9_cache_key_derivation "Basic QWxhZGRpbjpvcGVuc2VzYW1l").2.2.1,
   (C9_cache_key_derivation "Basic QWxhZGRpbjpvcGVuc2VzYW1l").2.2.2 '0' (by decide)⟩

/-- C8: the handler is total with respect to failures — for every input the
outcome is a response with status 200, 400 or 500, and every non-200
response carries a structured `\x7b"error": message\x7d` body; no exception
escapes the handler boundary (the result type of `handler` is total). -/
theorem C8_no_unhandled_fault (oauth_apps : Option OAuthApp) (auth_cache : Cache)
    (config : String → Option String) (payload : Except String JValue)
    (upstream : Except String HttpResponse) (now : Nat) :
    ((handler oauth_apps auth_cache config payload upstream now).status_code = 200 ∨
     (handler oauth_apps auth_cache config payload upstream now).status_code = 400 ∨
     (handler oauth_apps auth_cache config payload upstream now).status_code = 500) ∧
    ((handler oauth_apps auth_cache config payload upstream now).status_code ≠ 200 →
      ∃ m, (handler oauth_apps auth_cache config payload upstream now).body =
        JValue.obj [("error", JValue.str m)]) := by
  cases h : handler_try oauth_apps auth_cache config payload upstream now with
  | ok p =>
    obtain ⟨body, apps, cache, f⟩ := p
    constructor
    · left
      simp [handler, h, build_response]
    · intro hne
      exact absurd (by simp [handler, h, build_response]) hne
  | error p =>
    obtain ⟨e, apps, cache, f⟩ := p
    by_cases hv : e.isValueError = true
    · constructor
      · right; left
        simp [handler, h, build_response, hv]
      · intro _
        exact ⟨e.msg, by simp [handler, h, build_response, hv]⟩
    · constructor
      · right; right
        simp [handler, h, build_response, hv]
      · intro _
        exact ⟨e.msg, by simp [handler, h, build_response, hv]⟩

/-- Witness for C8: the conditional clause discharged on a concrete failing
invocation (empty payload object, valid configuration). -/
theorem C8_no_unhandled_fault_witness :
    ∃ m, (handler none emptyCache cfgStd (Except.ok (JValue.obj []))
        (Except.ok { status_code := 200, text := "", json := Except.ok JValue.null }) 0).body =
      JValue.obj [("error", JValue.str m)] :=
  (C8_no_unhandled_fault none emptyCache cfgStd (Except.ok (JValue.obj []))
      (Except.ok { status_code := 200, text := "", json := Except.ok JValue.null }) 0).2
    (by decide)

/-- C3 counterexample: with a configuration mapping lacking `TOKEN_URL`,
configuration loading raises `KeyError`, and the invocation returns 500 —
not 400 as the claim states for exceptions raised during configuration
loading.  (`KeyError` is not a `ValueError`, so the `except Exception`
branch answers.) -/
theorem C3_counterexample :
    (handler none emptyCache (fun _ => none)
        (Except.ok (JValue.obj [("token", JValue.str "Basic abc")]))
        (Except.ok { status_code := 200, text := "", json := Except.ok JValue.null })
        0).status_code = 500 ∧
    (handler none emptyCache (fun _ => none)
        (Except.ok (JValue.obj [("token", JValue.str "Basic abc")]))
        (Except.ok { status_code := 200, text := "", json := Except.ok JValue.null })
        0).body = JValue.obj [("error", JValue.str "\x27TOKEN_URL\x27")] :=
  ⟨rfl, rfl⟩

/-- C3 amended: the status is decided by the exception's type, not by the
phase that raised it — an invocation returns 400 iff the orchestration flow
raised a `ValueError` (extraction's validation failures and JSON parse
errors, `json.JSONDecodeError` being a `ValueError` subclass), and 500 iff
it raised any other exception (including `KeyError` from configuration
loading and `AttributeError` from extraction); in both cases the body
carries the error message. -/
theorem C3_amended_status_by_exception_type (oauth_apps : Option OAuthApp)
    (auth_cache : Cache) (config : String → Option String) (payload : Except String JValue)
    (upstream : Except String HttpResponse) (now : Nat) :
    ((handler oauth_apps auth_cache config payload upstream now).status_code = 400 ↔
      ∃ e apps cache f, handler_try oauth_apps auth_cache config payload upstream now =
        Except.error (e, apps, cache, f) ∧ e.isValueError = true) ∧
    ((handler oauth_apps auth_cache config payload upstream now).status_code = 500 ↔
      ∃ e apps cache f, handler_try oauth_apps auth_cache config payload upstream now =
        Except.error (e, apps, cache, f) ∧ e.isValueError = false) ∧
    (∀ e apps cache f, handler_try oauth_apps auth_cache config payload upstream now =
        Except.error (e, apps, cache, f) →
      (handler oauth_apps auth_cache config payload upstream now).body =
        JValue.obj [("error", JValue.str e.msg)]) := by
  cases h : handler_try oauth_apps auth_cache config payload upstream now with
  | ok p =>
    obtain ⟨body, apps, cache, f⟩ := p
    refine ⟨?_, ?_, ?_⟩
    · constructor
      · intro hst
        simp [handler, h, build_response] at hst
      · rintro ⟨e, a2, c2, f2, heq, _⟩
        simp [h] at heq
    · constructor
      · intro hst
        simp [handler, h, build_response] at hst
      · rintro ⟨e, a2, c2, f2, heq, _⟩
        simp [h] at heq
    · intro e a2 c2 f2 heq
      simp [h] at heq
  | error p =>
    obtain ⟨e, apps, cache, f⟩ := p
    by_cases hv : e.isValueError = true
    · refine ⟨?_, ?_, ?_⟩
      · constructor
        · intro _
          exact ⟨e, apps, cache, f, rfl, hv⟩
        · intro _
          simp [handler, h, build_response, hv]
      · constructor
        · intro hst
          simp [handler, h, build_response, hv] at hst
        · rintro ⟨e2, a2, c2, f2, heq, hv2⟩
          simp [h] at heq
          rw [← heq.1] at hv2
          rw [hv] at hv2
          cases hv2
      · intro e2 a2 c2 f2 heq
        simp [h] at heq
        rw [← heq.1]
        simp [handler, h, build_response, hv]
    · refine ⟨?_, ?_, ?_⟩
      · constructor
        · intro hst
          simp [handler, h, build_response, hv] at hst
        · rintro ⟨e2, a2, c2, f2, heq, hv2⟩
          simp [h] at heq
          rw [← heq.1] at hv2
          rw [hv2] at hv
          cases hv rfl
      · constructor
        · intro _
          refine ⟨e, apps, cache, f, rfl, ?_⟩
          cases hb : e.isValueError with
          | false => rfl
          | true => exact absurd hb hv
        · intro _
          simp [handler, h, build_response, hv]
      · intro e2 a2 c2 f2 heq
        simp [h] at heq
        rw [← heq.1]
        simp [handler, h, build_response, hv]

/-- Witness for C3 amended: both directions realized concretely — a
`ValueError` invocation (empty payload object) answered 400, and a
non-`ValueError` invocation (missing configuration keys) answered 500. -/
theorem C3_amended_witness :
    (handler none emptyCache cfgStd (Except.ok (JValue.obj []))
        (Except.ok { status_code := 200, text := "", json := Except.ok JValue.null })
        0).status_code = 400 ∧
    (handler none emptyCache (fun _ => none) (Except.ok (JValue.obj []))
        (Except.ok { status_code := 200, text := "", json := Except.ok JValue.null })
        0).status_code = 500 :=
  ⟨((C3_amended_status_by_exception_type none emptyCache cfgStd (Except.ok (JValue.obj []))
        (Except.ok { status_code := 200, text := "", json := Except.ok JValue.null }) 0).1).2
      ⟨PyErr.valueError "Missing or invalid Authorization header", some cfgApp, emptyCache,
        false, rfl, rfl⟩,
   ((C3_amended_status_by_exception_type none emptyCache (fun _ => none)
        (Except.ok (JValue.obj []))
        (Except.ok { status_code := 200, text := "", json := Except.ok JValue.null }) 0).2.1).2
      ⟨PyErr.keyError "TOKEN_URL", none, emptyCache, false, rfl, rfl⟩⟩

/-- On a cache miss (no cached token, or a falsy one), the handler's try
block reduces to the fetch tail. -/
theorem handler_try_miss (oauth_apps : Option OAuthApp) (auth_cache : Cache)
    (config : String → Option String) (payload : Except String JValue)
    (upstream : Except String HttpResponse) (now : Nat) (app : OAuthApp) (body : JValue)
    (auth_header : String)
    (happ : init_context oauth_apps config = Except.ok app)
    (hbody : payload = Except.ok body)
    (hext : extract_auth_header body = Except.ok auth_header)
    (hmiss : ∀ t, get_cached_token auth_cache (get_cache_key auth_header) now = some t →
      pyTruthy t = false) :
    handler_try oauth_apps auth_cache config payload upstream now =
      handler_fetch app auth_cache (get_cache_key auth_header) auth_header upstream now := by
  cases hc : get_cached_token auth_cache (get_cache_key auth_header) now with
  | none =>
    simp only [handler_try, happ, hbody, hext, hc]
  | some t =>
    have ht := hmiss t hc
    simp only [handler_try, happ, hbody, hext, hc, ht]
    rfl

/-- On a cache hit with a truthy token, the handler's try block answers the
cached-token success payload without touching the cache. -/
theorem handler_try_hit (oauth_apps : Option OAuthApp) (auth_cache : Cache)
    (config : String → Option String) (payload : Except String JValue)
    (upstream : Except String HttpResponse) (now : Nat) (app : OAuthApp) (body : JValue)
    (auth_header : String) (tok : JValue)
    (happ : init_context oauth_apps config = Except.ok app)
    (hbody : payload = Except.ok body)
    (hext : extract_auth_header body = Except.ok auth_header)
    (hhit : get_cached_token auth_cache (get_cache_key auth_header) now = some tok)
    (htruthy : pyTruthy tok = true) :
    handler_try oauth_apps auth_cache config payload upstream now =
      Except.ok (success_body app.SCOPE tok, some app, auth_cache, false) := by
  simp only [handler_try, happ, hbody, hext, hhit, htruthy]
  rw [if_pos trivial]

/-- C2 counterexample: a reached exchange whose upstream answers HTTP 200
with a JSON body lacking `access_token` makes the invocation return 400 —
not 500 as the claim states — because `fetch_new_token` raises `ValueError`
for that case and the handler's `except ValueError` branch answers 400. -/
theorem C2_counterexample :
    (handler none emptyCache cfgStd
        (Except.ok (JValue.obj [("token", JValue.str "Basic abc")]))
        (Except.ok { status_code := 200, text := "", json := Except.ok (JValue.obj []) })
        0).status_code = 400 ∧
    (handler none emptyCache cfgStd
        (Except.ok (JValue.obj [("token", JValue.str "Basic abc")]))
        (Except.ok { status_code := 200, text := "", json := Except.ok (JValue.obj []) })
        0).body =
      JValue.obj [("error", JValue.str "No access token returned from OCI IAM")] ∧
    (handler none emptyCache cfgStd
        (Except.ok (JValue.obj [("token", JValue.str "Basic abc")]))
        (Except.ok { status_code := 200, text := "", json := Except.ok (JValue.obj []) })
        0).fetched = true :=
  ⟨rfl, rfl, rfl⟩

/-- C2 amended: a reached exchange fails in exactly the two stated cases,
but they surface differently — a non-200 upstream status raises
`RuntimeError` and the invocation returns 500 with the upstream body text in
the message, while a 200 response whose JSON object lacks a truthy
`access_token` raises `ValueError` and the invocation returns 400 with
`\x7b"error": "No access token returned from OCI IAM"\x7d`. -/
theorem C2_amended_exchange_failures (oauth_apps : Option OAuthApp) (auth_cache : Cache)
    (config : String → Option String) (payload : Except String JValue)
    (upstream : Except String HttpResponse) (now : Nat) (app : OAuthApp) (body : JValue)
    (auth_header : String)
    (happ : init_context oauth_apps config = Except.ok app)
    (hbody : payload = Except.ok body)
    (hext : extract_auth_header body = Except.ok auth_header)
    (hmiss : ∀ t, get_cached_token auth_cache (get_cache_key auth_header) now = some t →
      pyTruthy t = false) :
    (∀ r, upstream = Except.ok r → r.status_code ≠ 200 →
      (handler oauth_apps auth_cache config payload upstream now).status_code = 500 ∧
      (handler oauth_apps auth_cache config payload upstream now).body =
        JValue.obj [("error", JValue.str ("Token request failed: " ++ r.text))]) ∧
    (∀ r fs, upstream = Except.ok r → r.status_code = 200 →
      r.json = Except.ok (JValue.obj fs) →
      pyTruthy (dictGet fs "access_token") = false →
      (handler oauth_apps auth_cache config payload upstream now).status_code = 400 ∧
      (handler oauth_apps auth_cache config payload upstream now).body =
        JValue.obj [("error", JValue.str "No access token returned from OCI IAM")]) := by
  have hmissEq := handler_try_miss oauth_apps auth_cache config payload upstream now app
    body auth_header happ hbody hext hmiss
  constructor
  · intro r hup hne
    have hh : handler oauth_apps auth_cache config payload upstream now =
        { status_code := 500,
          body := JValue.obj [("error", JValue.str ("Token request failed: " ++ r.text))],
          oauth_apps := some app, auth_cache := auth_cache, fetched := true } := by
      unfold handler
      rw [hmissEq]
      simp only [handler_fetch, fetch_new_token, hup]
      rw [if_pos hne]
      rfl
    exact ⟨by rw [hh], by rw [hh]⟩
  · intro r fs hup h200 hjson hfalsy
    have hh : handler oauth_apps auth_cache config payload upstream now =
        { status_code := 400,
          body := JValue.obj [("error", JValue.str "No access token returned from OCI IAM")],
          oauth_apps := some app, auth_cache := auth_cache, fetched := true } := by
      unfold handler
      rw [hmissEq]
      simp only [handler_fetch, fetch_new_token, hup]
      rw [if_neg (fun hne => hne h200)]
      simp only [hjson, hfalsy]
      rfl
    exact ⟨by rw [hh], by rw [hh]⟩

/-- Witness for C2 amended: both failure cases realized concretely — an
upstream 401 answered 500 with the upstream text, and an upstream 200 with
an empty JSON object answered 400. -/
theorem C2_amended_witness :
    (handler none emptyCache cfgStd
        (Except.ok (JValue.obj [("token", JValue.str "Basic abc")]))
        (Except.ok { status_code := 401, text := "unauthorized", json := Except.ok JValue.null })
        0).status_code = 500 ∧
    (handler none emptyCache cfgStd
        (Except.ok (JValue.obj [("token", JValue.str "Basic abc")]))
        (Except.ok { status_code := 200, text := "", json := Except.ok (JValue.obj []) })
        0).status_code = 400 :=
  ⟨((C2_amended_exchange_failures none emptyCache cfgStd
        (Except.ok (JValue.obj [("token", JValue.str "Basic abc")]))
        (Except.ok { status_code := 401, text := "unauthorized", json := Except.ok JValue.null })
        0 cfgApp (JValue.obj [("token", JValue.str "Basic abc")]) "Basic abc"
        rfl rfl rfl
        (fun t h => Option.noConfusion
          (show (none : Option JValue) = some t from h))).1
      { status_code := 401, text := "unauthorized", json := Except.ok JValue.null }
      rfl (by decide)).1,
   ((C2_amended_exchange_failures none emptyCache cfgStd
        (Except.ok (JValue.obj [("token", JValue.str "Basic abc")]))
        (Except.ok { status_code := 200, text := "", json := Except.ok (JValue.obj []) })
        0 cfgApp (JValue.obj [("token", JValue.str "Basic abc")]) "Basic abc"
        rfl rfl rfl
        (fun t h => Option.noConfusion
          (show (none : Option JValue) = some t from h))).2
      { status_code := 200, text := "", json := Except.ok (JValue.obj []) } []
      rfl rfl rfl (by decide)).1⟩

/-- `extract_auth_header` on an object payload is the chain then the check. -/
theorem extract_auth_header_obj (fields : List (String × JValue)) :
    extract_auth_header (JValue.obj fields) = extract_check (extract_chain fields) := rfl

/-- The validation check propagates chain errors. -/
theorem extract_check_error (e : PyErr) :
    extract_check (Except.error e) = Except.error e := rfl

/-- The validation check on a non-empty string match tests the prefix. -/
theorem extract_check_str (s : String) (hs : s ≠ "") :
    extract_check (Except.ok (JValue.str s)) =
      if pyStartsWith s "Basic " = true then Except.ok s
      else Except.error (PyErr.valueError "Missing or invalid Authorization header") := by
  show (if pyTruthy (JValue.str s) = false then _ else _) = _
  rw [show pyTruthy (JValue.str s) = true from by simp [pyTruthy, hs]]
  rfl

/-- The validation check on a falsy match raises the validation error. -/
theorem extract_check_falsy (v : JValue) (hv : pyTruthy v = false) :
    extract_check (Except.ok v) =
      Except.error (PyErr.valueError "Missing or invalid Authorization header") := by
  show (if pyTruthy v = false then _ else _) = _
  rw [hv]
  rfl

/-- The chain short-circuits on a truthy `token` value. -/
theorem extract_chain_tok (fields : List (String × JValue))
    (ht1 : pyTruthy (dictGet fields "token") = true) :
    extract_chain fields = Except.ok (dictGet fields "token") := by
  unfold extract_chain
  rw [ht1]
  rfl

/-- The chain takes a truthy nested `data.Authorization` value. -/
theorem extract_chain_data_hit (fields dfs : List (String × JValue))
    (hf1 : pyTruthy (dictGet fields "token") = false)
    (h2 : dictFind fields "data" = some (JValue.obj dfs))
    (ht2 : pyTruthy (dictGet dfs "Authorization") = true) :
    extract_chain fields = Except.ok (dictGet dfs "Authorization") := by
  unfold extract_chain
  rw [hf1, show dictGetOr fields "data" (JValue.obj []) = JValue.obj dfs from by
    simp [dictGetOr, h2]]
  show (if pyTruthy (dictGet dfs "Authorization") = true then _ else _) = _
  rw [ht2]
  rfl

/-- With no `data` field the chain falls through to `Authorization`. -/
theorem extract_chain_auth_of_data_none (fields : List (String × JValue))
    (hf1 : pyTruthy (dictGet fields "token") = false)
    (h2 : dictFind fields "data" = none) :
    extract_chain fields = Except.ok (dictGet fields "Authorization") := by
  unfold extract_chain
  rw [hf1, show dictGetOr fields "data" (JValue.obj []) = JValue.obj [] from by
    simp [dictGetOr, h2]]
  rfl

/-- With a mapping `data` whose `Authorization` is falsy the chain falls
through to the top-level `Authorization`. -/
theorem extract_chain_auth_of_data_falsy (fields dfs : List (String × JValue))
    (hf1 : pyTruthy (dictGet fields "token") = false)
    (h2 : dictFind fields "data" = some (JValue.obj dfs))
    (hf2 : pyTruthy (dictGet dfs "Authorization") = false) :
    extract_chain fields = Except.ok (dictGet fields "Authorization") := by
  unfold extract_chain
  rw [hf1, show dictGetOr fields "data" (JValue.obj []) = JValue.obj dfs from by
    simp [dictGetOr, h2]]
  show (if pyTruthy (dictGet dfs "Authorization") = true then _ else _) = _
  rw [hf2]
  rfl

/-- With a falsy `token` and a present non-mapping `data` value, the chain
raises `AttributeError`. -/
theorem extract_chain_data_error (fields : List (String × JValue)) (v : JValue)
    (hf1 : pyTruthy (dictGet fields "token") = false)
    (h2 : dictFind fields "data" = some v)
    (hnotobj : ∀ dfs, v ≠ JValue.obj dfs) :
    extract_chain fields = Except.error (PyErr.attributeError
      ("\x27" ++ pyTypeName v ++ "\x27 object has no attribute \x27get\x27")) := by
  unfold extract_chain
  rw [hf1, show dictGetOr fields "data" (JValue.obj []) = v from by simp [dictGetOr, h2]]
  cases v with
  | obj dfs => exact absurd rfl (hnotobj dfs)
  | null => rfl
  | bool b => rfl
  | num n => rfl
  | str s => rfl
  | arr xs => rfl

/-- C10: when the top-level `token` is absent or empty and `data` is present
but not a mapping, extraction raises an unclassified `AttributeError`
(attribute access on a non-mapping), so the invocation returns 500 without
reaching the exchange — it does not fall through to the top-level
`Authorization` field, whatever that field holds. -/
theorem C10_nonmapping_data (fields : List (String × JValue)) (v : JValue)
    (htok : dictFind fields "token" = none ∨ dictFind fields "token" = some (JValue.str ""))
    (hdata : dictFind fields "data" = some v)
    (hnotobj : ∀ dfs, v ≠ JValue.obj dfs) :
    (∃ m, extract_auth_header (JValue.obj fields) = Except.error (PyErr.attributeError m)) ∧
    (∀ oauth_apps auth_cache config app upstream now,
      init_context oauth_apps config = Except.ok app →
      (handler oauth_apps auth_cache config (Except.ok (JValue.obj fields))
          upstream now).status_code = 500 ∧
      (handler oauth_apps auth_cache config (Except.ok (JValue.obj fields))
          upstream now).fetched = false) := by
  have hfalsy : pyTruthy (dictGet fields "token") = false := by
    rcases htok with h | h <;> simp [dictGet, h, pyTruthy]
  have hext : extract_auth_header (JValue.obj fields) =
      Except.error (PyErr.attributeError
        ("\x27" ++ pyTypeName v ++ "\x27 object has no attribute \x27get\x27")) := by
    rw [extract_auth_header_obj, extract_chain_data_error fields v hfalsy hdata hnotobj,
      extract_check_error]
  refine ⟨⟨_, hext⟩, ?_⟩
  intro oauth_apps auth_cache config app upstream now happ
  have htry : handler_try oauth_apps auth_cache config (Except.ok (JValue.obj fields))
      upstream now =
      Except.error (PyErr.attributeError
        ("\x27" ++ pyTypeName v ++ "\x27 object has no attribute \x27get\x27"),
        some app, auth_cache, false) := by
    simp only [handler_try, happ, hext]
  have hh : handler oauth_apps auth_cache config (Except.ok (JValue.obj fields))
      upstream now =
      { status_code := 500,
        body := JValue.obj [("error", JValue.str
          ("\x27" ++ pyTypeName v ++ "\x27 object has no attribute \x27get\x27"))],
        oauth_apps := some app, auth_cache := auth_cache, fetched := false } := by
    unfold handler
    rw [htry]
    rfl
  exact ⟨by rw [hh], by rw [hh]⟩

/-- Witness for C10 at a concrete payload carrying a string `data` field and
a well-formed `Authorization` field. -/
theorem C10_nonmapping_data_witness :
    (handler none emptyCache cfgStd
        (Except.ok (JValue.obj [("data", JValue.str "zz"),
          ("Authorization", JValue.str "Basic ok")]))
        (Except.ok { status_code := 200, text := "", json := Except.ok JValue.null })
        0).status_code = 500 ∧
    (handler none emptyCache cfgStd
        (Except.ok (JValue.obj [("data", JValue.str "zz"),
          ("Authorization", JValue.str "Basic ok")]))
        (Except.ok { status_code := 200, text := "", json := Except.ok JValue.null })
        0).fetched = false :=
  (C10_nonmapping_data [("data", JValue.str "zz"), ("Authorization", JValue.str "Basic ok")]
      (JValue.str "zz") (Or.inl rfl) rfl (fun dfs h => JValue.noConfusion h)).2
    none emptyCache cfgStd cfgApp
    (Except.ok { status_code := 200, text := "", json := Except.ok JValue.null }) 0 rfl

/-- The fetch tail only answers success with a `success_body` payload. -/
theorem handler_fetch_ok_body (app : OAuthApp) (auth_cache : Cache)
    (cache_key auth_header : String) (upstream : Except String HttpResponse) (now : Nat)
    (p : JValue × Option OAuthApp × Cache × Bool)
    (h : handler_fetch app auth_cache cache_key auth_header upstream now = Except.ok p) :
    ∃ tok, p.1 = success_body app.SCOPE tok := by
  unfold handler_fetch at h
  split at h
  · cases h
  · injection h with h2
    exact ⟨_, by rw [← h2]⟩

/-- The try block only answers success with a `success_body` payload built
from the loaded configuration's scope. -/
theorem handler_try_ok_body (oauth_apps : Option OAuthApp) (auth_cache : Cache)
    (config : String → Option String) (payload : Except String JValue)
    (upstream : Except String HttpResponse) (now : Nat)
    (p : JValue × Option OAuthApp × Cache × Bool)
    (h : handler_try oauth_apps auth_cache config payload upstream now = Except.ok p) :
    ∃ app tok, init_context oauth_apps config = Except.ok app ∧
      p.1 = success_body app.SCOPE tok := by
  unfold handler_try at h
  split at h
  · cases h
  next app happ =>
    split at h
    · cases h
    next body hbody =>
      split at h
      · cases h
      next hdr hext =>
        split at h
        next tok hc =>
          split at h
          · injection h with h2
            exact ⟨app, tok, happ, by rw [← h2]⟩
          · obtain ⟨tok2, htok2⟩ := handler_fetch_ok_body _ _ _ _ _ _ _ h
            exact ⟨app, tok2, happ, htok2⟩
        next hc =>
          obtain ⟨tok2, htok2⟩ := handler_fetch_ok_body _ _ _ _ _ _ _ h
          exact ⟨app, tok2, happ, htok2⟩

/-- C7: every successful invocation answers 200 with the `success_body`
shape; on a cache hit (a truthy cached string token) the handler answers 200
with exactly `\x7b"active": true, "scope": scope, "context":
\x7b"token_response": "Bearer " + token\x7d\x7d` without touching the cache or the
exchange, and on a cache miss with a successful exchange it answers the
identical shape built from the newly fetched token, caching it — the two
paths produce responses of the same shape. -/
theorem C7_success_response_shape (oauth_apps : Option OAuthApp) (auth_cache : Cache)
    (config : String → Option String) (payload : Except String JValue)
    (upstream : Except String HttpResponse) (now : Nat) (app : OAuthApp) (body : JValue)
    (auth_header : String)
    (happ : init_context oauth_apps config = Except.ok app)
    (hbody : payload = Except.ok body)
    (hext : extract_auth_header body = Except.ok auth_header) :
    ((handler oauth_apps auth_cache config payload upstream now).status_code = 200 →
      ∃ tok, (handler oauth_apps auth_cache config payload upstream now).body =
        success_body app.SCOPE tok) ∧
    (∀ t : String,
      get_cached_token auth_cache (get_cache_key auth_header) now = some (JValue.str t) →
      t ≠ "" →
      handler oauth_apps auth_cache config payload upstream now =
        { status_code := 200,
          body := JValue.obj [("active", JValue.bool true),
            ("scope", JValue.str app.SCOPE),
            ("context", JValue.obj [("token_response", JValue.str ("Bearer " ++ t))])],
          oauth_apps := some app, auth_cache := auth_cache, fetched := false }) ∧
    (∀ r fs (t : String),
      (∀ ct, get_cached_token auth_cache (get_cache_key auth_header) now = some ct →
        pyTruthy ct = false) →
      upstream = Except.ok r → r.status_code = 200 →
      r.json = Except.ok (JValue.obj fs) →
      dictGet fs "access_token" = JValue.str t → t ≠ "" →
      handler oauth_apps auth_cache config payload upstream now =
        { status_code := 200,
          body := JValue.obj [("active", JValue.bool true),
            ("scope", JValue.str app.SCOPE),
            ("context", JValue.obj [("token_response", JValue.str ("Bearer " ++ t))])],
          oauth_apps := some app,
          auth_cache := cache_token auth_cache (get_cache_key auth_header) (JValue.str t)
            (decode_jwt_expiry (JValue.str t)) now,
          fetched := true }) := by
  refine ⟨?_, ?_, ?_⟩
  · intro h200
    cases h : handler_try oauth_apps auth_cache config payload upstream now with
    | ok p =>
      obtain ⟨app2, tok, happ2, hp⟩ :=
        handler_try_ok_body oauth_apps auth_cache config payload upstream now p h
      rw [happ] at happ2
      injection happ2 with happ2
      subst happ2
      obtain ⟨pb, pa, pc, pf⟩ := p
      refine ⟨tok, ?_⟩
      rw [show (handler oauth_apps auth_cache config payload upstream now).body = pb from
        by unfold handler; rw [h]; rfl]
      exact hp
    | error p =>
      obtain ⟨e, apps, cache, f⟩ := p
      exfalso
      by_cases hv : e.isValueError = true
      · simp [handler, h, build_response, hv] at h200
      · simp [handler, h, build_response, hv] at h200
  · intro t hhit ht
    have htr : pyTruthy (JValue.str t) = true := by
      simp [pyTruthy, ht]
    have h1 := handler_try_hit oauth_apps auth_cache config payload upstream now app body
      auth_header (JValue.str t) happ hbody hext hhit htr
    unfold handler
    rw [h1]
    rfl
  · intro r fs t hmiss hup h200 hjson htok ht
    have htr : pyTruthy (JValue.str t) = true := by
      simp [pyTruthy, ht]
    have hmissEq := handler_try_miss oauth_apps auth_cache config payload upstream now app
      body auth_header happ hbody hext hmiss
    have hfetch : handler_try oauth_apps auth_cache config payload upstream now =
        Except.ok (success_body app.SCOPE (JValue.str t), some app,
          cache_token auth_cache (get_cache_key auth_header) (JValue.str t)
            (decode_jwt_expiry (JValue.str t)) now, true) := by
      rw [hmissEq]
      simp only [handler_fetch, fetch_new_token, hup]
      rw [if_neg (fun hne => hne h200)]
      simp only [hjson, htok, htr]
      rfl
    unfold handler
    rw [hfetch]
    rfl

/-- The two effective shapes of an absent-null-or-string payload candidate:
falsy with no non-empty match, or a non-empty string. -/
theorem strOrNull_cases (o : Option JValue) (h : isStrOrNullOpt o) :
    (pyTruthy (o.getD JValue.null) = false ∧ nonEmptyStr o = none) ∨
    (∃ s, o = some (JValue.str s) ∧ s ≠ "" ∧ pyTruthy (o.getD JValue.null) = true ∧
      nonEmptyStr o = some s) := by
  cases o with
  | none => left; exact ⟨rfl, rfl⟩
  | some v =>
    cases v with
    | null => left; exact ⟨rfl, rfl⟩
    | str s =>
      by_cases hs : s = ""
      · subst hs
        left
        exact ⟨rfl, rfl⟩
      · right
        refine ⟨s, rfl, hs, ?_, ?_⟩
        · simp [pyTruthy, hs]
        · simp [nonEmptyStr, hs]
    | bool b => exact h.elim
    | num n => exact h.elim
    | arr xs => exact h.elim
    | obj fs2 => exact h.elim

/-- For payloads whose three candidate locations hold strings (or null, or
are absent) and whose `data` is a mapping when present, `extract_auth_header`
computes exactly the spec-side extraction. -/
theorem extract_eq_spec_extract (fields : List (String × JValue))
    (htok : isStrOrNullOpt (dictFind fields "token"))
    (hdata : isObjOpt (dictFind fields "data"))
    (hdauth : ∀ dfs, dictFind fields "data" = some (JValue.obj dfs) →
      isStrOrNullOpt (dictFind dfs "Authorization"))
    (hauth : isStrOrNullOpt (dictFind fields "Authorization")) :
    extract_auth_header (JValue.obj fields) = spec_extract (JValue.obj fields) := by
  rw [extract_auth_header_obj]
  rcases strOrNull_cases _ htok with ⟨hf1, hn1⟩ | ⟨s1, he1, hs1, ht1, hn1⟩
  · -- the token candidate is falsy
    cases h2 : dictFind fields "data" with
    | none =>
      rw [extract_chain_auth_of_data_none fields hf1 h2]
      rcases strOrNull_cases _ hauth with ⟨hf3, hn3⟩ | ⟨s3, he3, hs3, ht3, hn3⟩
      · rw [extract_check_falsy (dictGet fields "Authorization") hf3]
        have hspec : spec_first_match (JValue.obj fields) = none := by
          simp [spec_first_match, hn1, h2, hn3]
        unfold spec_extract
        rw [hspec]
      · rw [show dictGet fields "Authorization" = JValue.str s3 from by
          simp [dictGet, he3]]
        rw [extract_check_str s3 hs3]
        have hspec : spec_first_match (JValue.obj fields) = some s3 := by
          simp [spec_first_match, hn1, h2, hn3]
        unfold spec_extract
        rw [hspec]
    | some v2 =>
      have hd := hdata
      rw [h2] at hd
      cases v2 with
      | obj dfs =>
        have hda := hdauth dfs h2
        rcases strOrNull_cases _ hda with ⟨hf2, hn2⟩ | ⟨s2, he2, hs2, ht2, hn2⟩
        · rw [extract_chain_auth_of_data_falsy fields dfs hf1 h2 hf2]
          rcases strOrNull_cases _ hauth with ⟨hf3, hn3⟩ | ⟨s3, he3, hs3, ht3, hn3⟩
          · rw [extract_check_falsy (dictGet fields "Authorization") hf3]
            have hspec : spec_first_match (JValue.obj fields) = none := by
              simp [spec_first_match, hn1, h2, hn2, hn3]
            unfold spec_extract
            rw [hspec]
          · rw [show dictGet fields "Authorization" = JValue.str s3 from by
              simp [dictGet, he3]]
            rw [extract_check_str s3 hs3]
            have hspec : spec_first_match (JValue.obj fields) = some s3 := by
              simp [spec_first_match, hn1, h2, hn2, hn3]
            unfold spec_extract
            rw [hspec]
        · rw [extract_chain_data_hit fields dfs hf1 h2 ht2]
          rw [show dictGet dfs "Authorization" = JValue.str s2 from by
            simp [dictGet, he2]]
          rw [extract_check_str s2 hs2]
          have hspec : spec_first_match (JValue.obj fields) = some s2 := by
            simp [spec_first_match, hn1, h2, hn2]
          unfold spec_extract
          rw [hspec]
      | null => exact hd.elim
      | bool b => exact hd.elim
      | num n => exact hd.elim
      | str s => exact hd.elim
      | arr xs => exact hd.elim
  · -- the token candidate is a non-empty string
    rw [extract_chain_tok fields ht1]
    rw [show dictGet fields "token" = JValue.str s1 from by simp [dictGet, he1]]
    rw [extract_check_str s1 hs1]
    have hspec : spec_first_match (JValue.obj fields) = some s1 := by
      simp [spec_first_match, hn1]
    unfold spec_extract
    rw [hspec]

/-- C4 counterexample: for the payload `\x7b"data": 5\x7d` no non-empty match
exists in any of the three locations, yet extraction does not fail with a
validation error — it raises `AttributeError` (a non-validation error), so
the claim's "fails with a validation error iff no non-empty match exists"
is false at this input. -/
theorem C4_counterexample :
    spec_first_match (JValue.obj [("data", JValue.num 5)]) = none ∧
    extract_auth_header (JValue.obj [("data", JValue.num 5)]) =
      Except.error (PyErr.attributeError
        "\x27int\x27 object has no attribute \x27get\x27") ∧
    PyErr.isValueError (PyErr.attributeError
      "\x27int\x27 object has no attribute \x27get\x27") = false :=
  ⟨rfl, rfl, rfl⟩

/-- The spec-side extraction when a first non-empty match exists. -/
theorem spec_extract_some (body : JValue) (s : String)
    (h : spec_first_match body = some s) :
    spec_extract body =
      if pyStartsWith s "Basic " = true then Except.ok s
      else Except.error (PyErr.valueError "Missing or invalid Authorization header") := by
  unfold spec_extract
  rw [h]

/-- The spec-side extraction when no non-empty match exists. -/
theorem spec_extract_none (body : JValue) (h : spec_first_match body = none) :
    spec_extract body =
      Except.error (PyErr.valueError "Missing or invalid Authorization header") := by
  unfold spec_extract
  rw [h]

/-- C4 amended: restricted to payloads whose three candidate locations hold
strings (or null, or are absent) and whose `data` field, when present, is a
mapping — the cases in which no `AttributeError` interferes —
`extract_auth_header` returns the first non-empty match iff it begins with
`"Basic "`, and fails with the validation error iff there is no non-empty
match in the three locations or the first non-empty match does not begin
with `"Basic "`. -/
theorem C4_amended_extraction (fields : List (String × JValue))
    (htok : isStrOrNullOpt (dictFind fields "token"))
    (hdata : isObjOpt (dictFind fields "data"))
    (hdauth : ∀ dfs, dictFind fields "data" = some (JValue.obj dfs) →
      isStrOrNullOpt (dictFind dfs "Authorization"))
    (hauth : isStrOrNullOpt (dictFind fields "Authorization")) :
    (∀ s, extract_auth_header (JValue.obj fields) = Except.ok s ↔
      spec_first_match (JValue.obj fields) = some s ∧ pyStartsWith s "Basic " = true) ∧
    ((∃ m, extract_auth_header (JValue.obj fields) =
        Except.error (PyErr.valueError m)) ↔
      spec_first_match (JValue.obj fields) = none ∨
      ∃ s, spec_first_match (JValue.obj fields) = some s ∧
        pyStartsWith s "Basic " = false) := by
  rw [extract_eq_spec_extract fields htok hdata hdauth hauth]
  constructor
  · intro s
    cases hm : spec_first_match (JValue.obj fields) with
    | none =>
      rw [spec_extract_none _ hm]
      simp
    | some s0 =>
      rw [spec_extract_some _ _ hm]
      by_cases hb : pyStartsWith s0 "Basic " = true
      · rw [if_pos hb]
        constructor
        · intro h
          injection h with h
          subst h
          exact ⟨rfl, hb⟩
        · rintro ⟨hss, _⟩
          injection hss with hss
          rw [hss]
      · rw [if_neg hb]
        constructor
        · intro h
          simp at h
        · rintro ⟨hss, hsb⟩
          injection hss with hss
          subst hss
          exact absurd hsb hb
  · cases hm : spec_first_match (JValue.obj fields) with
    | none =>
      rw [spec_extract_none _ hm]
      simp
    | some s0 =>
      rw [spec_extract_some _ _ hm]
      by_cases hb : pyStartsWith s0 "Basic " = true
      · rw [if_pos hb]
        constructor
        · rintro ⟨m, hmm⟩
          simp at hmm
        · rintro (h | ⟨s, hss, hsb⟩)
          · simp at h
          · injection hss with hss
            subst hss
            rw [hb] at hsb
            cases hsb
      · rw [if_neg hb]
        constructor
        · intro _
          right
          refine ⟨s0, rfl, ?_⟩
          cases hbb : pyStartsWith s0 "Basic " with
          | false => rfl
          | true => exact absurd hbb hb
        · intro _
          exact ⟨"Missing or invalid Authorization header", rfl⟩

/-- Witness for C4 amended at a concrete payload with only a well-formed
top-level `Authorization` field. -/
theorem C4_amended_extraction_witness :
    extract_auth_header (JValue.obj [("Authorization", JValue.str "Basic ok")]) =
      Except.ok "Basic ok" :=
  ((C4_amended_extraction [("Authorization", JValue.str "Basic ok")]
      trivial trivial
      (fun dfs h => Option.noConfusion
        (show (none : Option JValue) = some (JValue.obj dfs) from h))
      trivial).1 "Basic ok").mpr ⟨rfl, rfl⟩

/-- Witness for C7: a concrete cache-hit invocation (valid cached entry, the
network unreachable) and a concrete cache-miss invocation (empty cache,
upstream delivering a fresh token), each answering 200 with the same shape. -/
theorem C7_success_response_shape_witness :
    handler none
        (cache_token emptyCache (get_cache_key "Basic abc") (JValue.str "ct") (some 50) 0)
        cfgStd (Except.ok (JValue.obj [("token", JValue.str "Basic abc")]))
        (Except.error "connection refused") 10 =
      { status_code := 200,
        body := JValue.obj [("active", JValue.bool true),
          ("scope", JValue.str cfgApp.SCOPE),
          ("context", JValue.obj [("token_response", JValue.str ("Bearer " ++ "ct"))])],
        oauth_apps := some cfgApp,
        auth_cache := cache_token emptyCache (get_cache_key "Basic abc")
          (JValue.str "ct") (some 50) 0,
        fetched := false } ∧
    handler none emptyCache cfgStd
        (Except.ok (JValue.obj [("token", JValue.str "Basic abc")]))
        (Except.ok ⟨200, "",
          Except.ok (JValue.obj [("access_token", JValue.str "newtok")])⟩) 10 =
      { status_code := 200,
        body := JValue.obj [("active", JValue.bool true),
          ("scope", JValue.str cfgApp.SCOPE),
          ("context", JValue.obj [("token_response", JValue.str ("Bearer " ++ "newtok"))])],
        oauth_apps := some cfgApp,
        auth_cache := cache_token emptyCache (get_cache_key "Basic abc")
          (JValue.str "newtok") (decode_jwt_expiry (JValue.str "newtok")) 10,
        fetched := true } :=
  ⟨(C7_success_response_shape none
      (cache_token emptyCache (get_cache_key "Basic abc") (JValue.str "ct") (some 50) 0)
      cfgStd (Except.ok (JValue.obj [("token", JValue.str "Basic abc")]))
      (Except.error "connection refused") 10 cfgApp
      (JValue.obj [("token", JValue.str "Basic abc")]) "Basic abc"
      rfl rfl rfl).2.1 "ct" rfl (by decide),
   (C7_success_response_shape none emptyCache cfgStd
      (Except.ok (JValue.obj [("token", JValue.str "Basic abc")]))
      (Except.ok ⟨200, "",
        Except.ok (JValue.obj [("access_token", JValue.str "newtok")])⟩)
      10 cfgApp (JValue.obj [("token", JValue.str "Basic abc")]) "Basic abc"
      rfl rfl rfl).2.2
     ⟨200, "", Except.ok (JValue.obj [("access_token", JValue.str "newtok")])⟩
     [("access_token", JValue.str "newtok")] "newtok"
     (fun ct h => Option.noConfusion
       (show (none : Option JValue) = some ct from h))
     rfl rfl rfl rfl (by decide)⟩
